import Mathlib

/-!
Verification of the Gymnasion response engine (src/app.py).

The engine is embedded shallowly: Python session state becomes an explicit
`SessionState` record, each response strategy becomes a function
`... → SessionState → Option String × SessionState`, and every call to the
`random` module is replaced by a field of an explicit `Oracle` record, so that
theorems can quantify over all random outcomes.  String handling mirrors
Python's `str.strip`, `str.split()` and `str.lower()` on the character lists
underlying Lean strings.
-/

set_option linter.unusedVariables false

/-- Models Python `str.lower` character-wise for ASCII letters (the only
characters the engine's fixed vocabularies contain); other characters are
returned unchanged. -/
def pyCharLower (c : Char) : Char :=
  match c with
  | 'A' => 'a' | 'B' => 'b' | 'C' => 'c' | 'D' => 'd' | 'E' => 'e'
  | 'F' => 'f' | 'G' => 'g' | 'H' => 'h' | 'I' => 'i' | 'J' => 'j'
  | 'K' => 'k' | 'L' => 'l' | 'M' => 'm' | 'N' => 'n' | 'O' => 'o'
  | 'P' => 'p' | 'Q' => 'q' | 'R' => 'r' | 'S' => 's' | 'T' => 't'
  | 'U' => 'u' | 'V' => 'v' | 'W' => 'w' | 'X' => 'x' | 'Y' => 'y'
  | 'Z' => 'z'
  | _ => c

/-- Models Python `str.lower` on a whole string. -/
def pyLower (s : String) : String :=
  String.mk (s.data.map pyCharLower)

/-- Characters removed by Python `str.strip()` (whitespace). -/
def stripChars (l : List Char) : List Char :=
  ((l.dropWhile Char.isWhitespace).reverse.dropWhile Char.isWhitespace).reverse

/-- Models Python `str.strip()`: remove leading and trailing whitespace. -/
def pyStrip (s : String) : String :=
  String.mk (stripChars s.data)

/-- Accumulator form of Python `str.split()`: `acc` holds the (reversed)
characters of the word currently being read. -/
def pyWordsAux : List Char → List Char → List (List Char)
  | [], acc => if acc = [] then [] else [acc.reverse]
  | c :: cs, acc =>
    if c.isWhitespace then
      if acc = [] then pyWordsAux cs []
      else acc.reverse :: pyWordsAux cs []
    else pyWordsAux cs (c :: acc)

/-- Models Python `str.split()` (no separator argument) on the character
list: maximal runs of non-whitespace characters, in order. -/
def pyWords (l : List Char) : List (List Char) :=
  pyWordsAux l []

/-- Models Python `str.split()` returning strings. -/
def pySplit (s : String) : List String :=
  (pyWords s.data).map String.mk

/-- Models Python `random.choice(l)` given an oracle index `i`; `d` is a
dummy default that is never reached when `l` is non-empty (Python raises on
an empty list, and every call site guards non-emptiness). -/
def pyChoice {α : Type} (l : List α) (d : α) (i : Nat) : α :=
  l.getD (i % l.length) d

/-- Models Python `random.sample(l, min(2, len(l)))` given two oracle
indices: for lists of length at least two, pick one element, then one of the
remaining elements. -/
def pySample2 {α : Type} (l : List α) (d : α) (i j : Nat) : List α :=
  if l.length < 2 then l
  else
    let i' := i % l.length
    let a := l.getD i' d
    let rest := l.eraseIdx i'
    [a, rest.getD (j % rest.length) d]

/-- Models Python truthiness of an optional string (`if response:`): `None`
and the empty string are falsy. -/
def truthyStr (r : Option String) : Option String :=
  match r with
  | some s => if s = "" then none else some s
  | none => none

/-- Models `response or "Continue..."`-style Python `or` on an optional
string with a string default. -/
def pyOrElse (r : Option String) (d : String) : String :=
  match r with
  | some s => if s = "" then d else s
  | none => d

/-- Models Python `str.title()`: capitalize the first letter of each
alphabetic run, lowercase the rest. -/
def pyTitle (s : String) : String :=
  String.mk ((s.data.foldl
    (fun (acc : List Char × Bool) c =>
      if c.isAlpha then
        (acc.1 ++ [if acc.2 then c.toLower else c.toUpper], true)
      else (acc.1 ++ [c], false))
    ([], false)).1)

/-- Session state of one conversation: the `session[...]` keys written by
`reset_session` / `ensure_session` in src/app.py. -/
structure SessionState where
  poem_text : String
  banished_words : List String
  used_quotes : List (String × String)
  boredom : Int
  to_imitate : String
  imitation_attempts : Int
deriving DecidableEq, Repr

/-- State produced by `reset_session` (also the state `ensure_session`
builds on a fresh session): all fields at their defaults. -/
def reset_session : SessionState :=
  { poem_text := ""
    banished_words := []
    used_quotes := []
    boredom := 0
    to_imitate := ""
    imitation_attempts := 0 }

/-- Names of the response strategies of `GymnasionWebApp`, used to describe
the per-mode strategy pools. -/
inductive Strat
  | questionAboutAdjectives
  | questionAboutVerb
  | questionAboutObject
  | suggestQuote
  | wordBanishment
  | checkBanishedWords
  | authorialImitation
  | word2vecSuggestions
  | repetitionJudgment
  | commandRecallNoun
  | commandComparison
  | suggestQuoteStub
  | commentAboutEntities
deriving DecidableEq, Repr

/-- Oracle holding one turn's random draws: one field per `random.choice` /
`random.sample` index, the 30%-probability success roll of the imitation
strategy, and the shuffled strategy order produced by `random.shuffle`. -/
structure Oracle where
  qAdjNoun : Nat
  qAdjS1 : Nat
  qAdjS2 : Nat
  qVerbNoun : Nat
  qVerbVerb : Nat
  qVerbBeg : Nat
  qObjNoun : Nat
  qObjVerb : Nat
  qObjBeg : Nat
  quoteIdx : Nat
  quoteIntro : Nat
  banishNoun : Nat
  banishRel : Nat
  banishedResp : Nat
  imitAuthor : Nat
  imitSuccess : Bool
  imitPraise : Nat
  w2vNoun : Nat
  w2vS1 : Nat
  w2vS2 : Nat
  recallNounIdx : Nat
  recallBeg : Nat
  recallEnd : Nat
  compCur : Nat
  compOld : Nat
  compQ : Nat
  stubIdx : Nat
  stubIntro : Nat
  entityIdx : Nat
  entityQ : Nat
  shuffled : List Strat

/-- Oracle with all indices zero, the success roll false and no shuffle
override (used to instantiate theorems at concrete inputs). -/
def oracle0 : Oracle :=
  { qAdjNoun := 0, qAdjS1 := 0, qAdjS2 := 0
    qVerbNoun := 0, qVerbVerb := 0, qVerbBeg := 0
    qObjNoun := 0, qObjVerb := 0, qObjBeg := 0
    quoteIdx := 0, quoteIntro := 0
    banishNoun := 0, banishRel := 0
    banishedResp := 0
    imitAuthor := 0, imitSuccess := false, imitPraise := 0
    w2vNoun := 0, w2vS1 := 0, w2vS2 := 0
    recallNounIdx := 0, recallBeg := 0, recallEnd := 0
    compCur := 0, compOld := 0, compQ := 0
    stubIdx := 0, stubIntro := 0
    entityIdx := 0, entityQ := 0
    shuffled := [] }

/-- The `MOCK_ADJECTIVES` table: `MOCK_ADJECTIVES.get(noun,
MOCK_ADJECTIVES["default"])`. -/
def MOCK_ADJECTIVES (noun : String) : List String :=
  if noun = "forest" then ["dark", "ancient", "mysterious", "green", "dense"]
  else if noun = "mountain" then
    ["towering", "snow-capped", "rugged", "majestic", "distant"]
  else if noun = "bird" then
    ["soaring", "melodious", "swift", "graceful", "colorful"]
  else if noun = "sea" then ["vast", "turbulent", "azure", "endless", "foaming"]
  else ["beautiful", "strange", "wonderful", "terrible", "sublime"]

/-- The `MOCK_VERBS` table: `MOCK_VERBS.get(noun, MOCK_VERBS["default"])`. -/
def MOCK_VERBS (noun : String) : List (String × String) :=
  if noun = "wolf" then [("devour", "prey"), ("hunt", "deer"), ("howl", "moon")]
  else if noun = "bird" then [("sing", "song"), ("fly", "sky"), ("build", "nest")]
  else if noun = "mountain" then
    [("tower", "valley"), ("shelter", "village"), ("hold", "snow")]
  else [("love", "beauty"), ("seek", "truth"), ("create", "art")]

/-- The fixed `MOCK_QUOTES` catalog of `(quote, author)` pairs. -/
def MOCK_QUOTES : List (String × String) :=
  [("The mountains are calling and I must go.", "John Muir"),
   ("In every walk with nature, one receives far more than they seek.",
    "John Muir"),
   ("The sea, once it casts its spell, holds one in its net of wonder forever.",
    "Jacques Cousteau"),
   ("Look deep into nature, and then you will understand everything better.",
    "Albert Einstein"),
   ("The poetry of earth is never dead.", "John Keats")]

/-- The fixed `MOCK_AUTHORS` list. -/
def MOCK_AUTHORS : List String :=
  ["dickinson", "whitman", "shakespeare", "yeats", "frost"]

/-- The fixed noun vocabulary of `_extract_nouns` (24 entries). -/
def common_nouns : List String :=
  ["forest", "mountain", "bird", "sea", "tree", "sky", "sun", "moon",
   "star", "river", "lake", "flower", "stone", "wind", "fire", "earth",
   "wolf", "deer", "eagle", "lion", "bear", "snake", "fish", "horse"]

/-- Models `_extract_nouns`: lower-case, split on whitespace, keep tokens in
the fixed noun vocabulary, preserving order and duplicates. -/
def extract_nouns (text : String) : List String :=
  (pySplit (pyLower text)).filter (fun w => decide (w ∈ common_nouns))

/-- Models `_question_about_adjectives`. -/
def question_about_adjectives (text : String) (o : Oracle) (st : SessionState) :
    Option String × SessionState :=
  let nouns := extract_nouns text
  if nouns = [] then (none, st)
  else
    let noun := pyChoice nouns "" o.qAdjNoun
    let adjectives := MOCK_ADJECTIVES noun
    let adj_sample := pySample2 adjectives "" o.qAdjS1 o.qAdjS2
    (some ("What sort of " ++ noun ++ "? " ++ pyTitle (adj_sample.headD "")
      ++ "? "
      ++ (if 1 < adj_sample.length then pyTitle (adj_sample.getD 1 "")
          else "Beautiful") ++ "?"), st)

/-- Models `_question_about_verb`. -/
def question_about_verb (text : String) (o : Oracle) (st : SessionState) :
    Option String × SessionState :=
  let nouns := extract_nouns text
  if nouns = [] then (none, st)
  else
    let noun := pyChoice nouns "" o.qVerbNoun
    let verbs := MOCK_VERBS noun
    let vo := pyChoice verbs ("", "") o.qVerbVerb
    let beginnings :=
      ["What could", "Why does", "What shall", "What did", "Why would"]
    (some (pyChoice beginnings "" o.qVerbBeg ++ " the " ++ noun ++ " "
      ++ vo.1 ++ "?"), st)

/-- Models `_question_about_object`. -/
def question_about_object (text : String) (o : Oracle) (st : SessionState) :
    Option String × SessionState :=
  let nouns := extract_nouns text
  if nouns = [] then (none, st)
  else
    let noun := pyChoice nouns "" o.qObjNoun
    let verbs := MOCK_VERBS noun
    let vo := pyChoice verbs ("", "") o.qObjVerb
    let beginnings := ["What could", "What does", "What shall", "What did"]
    (some (pyChoice beginnings "" o.qObjBeg ++ " the " ++ noun
      ++ " do to the " ++ vo.2 ++ "?"), st)

/-- The fixed lead-in phrases of `_suggest_quote`. -/
def quote_intros : List String :=
  ["Learn from this mastery", "Now imitate this", "Emulate this discourse",
   "Listen and respond", "Student, learn from these words"]

/-- Formats the response of `_suggest_quote` for a chosen quote pair. -/
def quote_response (o : Oracle) (q : String × String) : String :=
  pyChoice quote_intros "" o.quoteIntro ++ ":\n\"" ++ q.1 ++ "\"\n   ("
    ++ q.2 ++ ")"

/-- Models `_suggest_quote`: clear `used_quotes` once all quotes are used,
pick a not-yet-used quote, record it, and return the formatted response. -/
def suggest_quote (o : Oracle) (st : SessionState) :
    Option String × SessionState :=
  let st1 :=
    if st.used_quotes ≠ [] ∧ MOCK_QUOTES.length ≤ st.used_quotes.length then
      { st with used_quotes := [] }
    else st
  let available_quotes :=
    MOCK_QUOTES.filter (fun q => decide (q ∉ st1.used_quotes))
  if available_quotes = [] then (none, st1)
  else
    let q := pyChoice available_quotes ("", "") o.quoteIdx
    (some (quote_response o q),
     { st1 with used_quotes := st1.used_quotes ++ [q] })

/-- Models `_word_banishment`: banish a random noun of the current text that
is not yet banished. -/
def word_banishment (text : String) (o : Oracle) (st : SessionState) :
    Option String × SessionState :=
  let nouns := extract_nouns text
  let available_nouns := nouns.filter (fun n => decide (n ∉ st.banished_words))
  if available_nouns = [] then (none, st)
  else
    let banned_word := pyChoice available_nouns "" o.banishNoun
    let rel_words := ["kin", "brethren", "kindred", "neighbors"]
    (some ("I forbid you from singing of " ++ banned_word
      ++ " or this word\x27s " ++ pyChoice rel_words "" o.banishRel ++ "."),
     { st with banished_words := st.banished_words ++ [banned_word] })

/-- The fixed scolding lead-ins of `_check_banished_words`. -/
def banished_responses : List String :=
  ["Are you even paying attention to yourself?",
   "You forget my instructions.", "How narrow your mind...",
   "How disappointing.", "Try harder."]

/-- Models `_check_banished_words`: scold about the first word of the text
that is banished; pure in the session state. -/
def check_banished_words (text : String) (o : Oracle) (st : SessionState) :
    Option String × SessionState :=
  if st.banished_words = [] then (none, st)
  else
    match (pySplit (pyLower text)).find?
        (fun w => decide (w ∈ st.banished_words)) with
    | some w =>
      (some (pyChoice banished_responses "" o.banishedResp
        ++ "\nI said not to sing of " ++ w ++ "..."), st)
    | none => (none, st)

/-- Models `_authorial_imitation`: open a challenge when none is active;
otherwise decrement the attempt counter and resolve when it reaches zero or
the 30% success roll passes. -/
def authorial_imitation (o : Oracle) (st : SessionState) :
    Option String × SessionState :=
  if st.to_imitate = "" then
    let author := pyChoice MOCK_AUTHORS "" o.imitAuthor
    (some ("Try that again, in the style of " ++ pyTitle author ++ "."),
     { st with to_imitate := author, imitation_attempts := 3 })
  else
    let st1 := { st with imitation_attempts := st.imitation_attempts - 1 }
    if st1.imitation_attempts ≤ 0 ∨ o.imitSuccess = true then
      (some (pyChoice
        ["Good.", "Satisfactory.",
         "I hope you have learned by letting go of yourself."] ""
        o.imitPraise),
       { st1 with to_imitate := "", imitation_attempts := 0 })
    else
      (some ("No, not that style --- imitate " ++ pyTitle st1.to_imitate
        ++ "."), st1)

/-- Models `_suggest_quote_stub`: stateless, always returns a stub. -/
def suggest_quote_stub (text : String) (o : Oracle) (st : SessionState) :
    Option String × SessionState :=
  let stub_intros :=
    ["Now finish this true sentence:", "Now follow this wordpath:",
     "Let these words take you by the tongue:", "Follow me:",
     "Complete these words:"]
  let stubs :=
    ["The mountains are calling and I must",
     "In every walk with nature, one receives",
     "Look deep into nature, and then you will",
     "The poetry of earth is never",
     "Two roads diverged in a yellow"]
  (some (pyChoice stub_intros "" o.stubIntro ++ "\n\""
    ++ pyChoice stubs "" o.stubIdx ++ "...\""), st)

/-- Models `_comment_about_entities`: comment on a capitalized token of
length more than two, with place framing for the fixed suffix set. -/
def comment_about_entities (text : String) (o : Oracle) (st : SessionState) :
    Option String × SessionState :=
  let words := pySplit text
  let entities :=
    words.filter (fun w => (w.data.headD ' ').isUpper && decide (2 < w.length))
  if entities = [] then (none, st)
  else
    let entity := pyChoice entities "" o.entityIdx
    let person_questions :=
      ["Now sing in praise of " ++ entity ++ "...",
       "Now sing me of the youth of " ++ entity ++ "...",
       "Now sing to me what we may learn from the sins of " ++ entity ++ "..."]
    let place_questions :=
      ["Show me " ++ entity ++ "...the taste of the people, the customs...",
       "Yes, now lure me to " ++ entity ++ "...",
       "Now describe the history of " ++ entity ++ "..."]
    if (pyLower entity).endsWith "land" ∨ (pyLower entity).endsWith "ton"
        ∨ (pyLower entity).endsWith "ville" ∨ (pyLower entity).endsWith "berg"
        ∨ (pyLower entity).endsWith "burg" then
      (some (pyChoice place_questions "" o.entityQ), st)
    else
      (some (pyChoice person_questions "" o.entityQ), st)

/-- The related-words table of `_word2vec_suggestions`. -/
def word2vec_related (noun : String) : List String :=
  if noun = "forest" then ["woodland", "grove", "thicket"]
  else if noun = "mountain" then ["peak", "summit", "ridge"]
  else if noun = "bird" then ["dove", "raven", "sparrow"]
  else if noun = "sea" then ["ocean", "waves", "tide"]
  else ["beauty", "truth", "wonder"]

/-- Models `_word2vec_suggestions`. -/
def word2vec_suggestions (text : String) (o : Oracle) (st : SessionState) :
    Option String × SessionState :=
  let nouns := extract_nouns text
  if nouns = [] then (none, st)
  else
    let noun := pyChoice nouns "" o.w2vNoun
    let suggestions := word2vec_related noun
    let selected := pySample2 suggestions "" o.w2vS1 o.w2vS2
    (some (selected.foldl (fun acc w => acc ++ w ++ "...")
      ("You\x27ve sung me " ++ noun ++ "...now sing me ")), st)

/-- Models `_repetition_judgment`: with boredom at least 3, complain about a
text of more than three words whose first word lower-cases to "i", quoting
the first four words and resetting boredom to 0. -/
def repetition_judgment (text : String) (st : SessionState) :
    Option String × SessionState :=
  if st.boredom < 3 then (none, st)
  else
    let words := pySplit text
    if 3 < words.length ∧ pyLower (words.headD "") = "i" then
      (some ("Eschew this tired syntax:\n   \""
        ++ String.intercalate " " (words.take 4) ++ "...\""),
       { st with boredom := 0 })
    else (none, st)

/-- The noun sub-vocabulary used by `_command_recall_noun`. -/
def recall_nouns : List String :=
  ["forest", "mountain", "bird", "sea", "tree", "sky", "sun", "moon"]

/-- Models `_command_recall_noun`: with boredom at least 5, recall a noun of
the transcript and reset boredom to 0. -/
def command_recall_noun (text : String) (o : Oracle) (st : SessionState) :
    Option String × SessionState :=
  if st.boredom < 5 then (none, st)
  else
    let poem_words := pySplit st.poem_text
    let nouns := poem_words.filter (fun w => decide (pyLower w ∈ recall_nouns))
    if nouns = [] then (none, st)
    else
      let old_noun := pyChoice nouns "" o.recallNounIdx
      let beginnings :=
        ["I grow weary.", "I grow bored.", "You have lost the thread."]
      let endings :=
        ["Return to the part about the " ++ old_noun,
         "Tell me more about the " ++ old_noun]
      (some (pyChoice beginnings "" o.recallBeg ++ " "
        ++ pyChoice endings "" o.recallEnd ++ "."),
       { st with boredom := 0 })

/-- The noun sub-vocabulary used by `_command_comparison` for old nouns. -/
def comparison_nouns : List String :=
  ["forest", "mountain", "bird", "sea", "tree", "sky"]

/-- Models `_command_comparison`: with boredom at least 5, compare a noun of
the transcript with a noun of the current text and reset boredom to 0. -/
def command_comparison (text : String) (o : Oracle) (st : SessionState) :
    Option String × SessionState :=
  if st.boredom < 5 then (none, st)
  else
    let current_nouns := extract_nouns text
    let poem_words := pySplit st.poem_text
    let old_nouns :=
      poem_words.filter (fun w => decide (pyLower w ∈ comparison_nouns))
    if current_nouns = [] ∨ old_nouns = [] then (none, st)
    else
      let current_noun := pyChoice current_nouns "" o.compCur
      let old_noun := pyChoice old_nouns "" o.compOld
      let questions :=
        ["Which will last longer?", "Which is deeper?",
         "Which is more lovely?", "Which is closer to the divine?",
         "Which is more virtuous?"]
      (some ("Now compare the " ++ old_noun ++ " to the " ++ current_noun
        ++ ". " ++ pyChoice questions "" o.compQ), { st with boredom := 0 })

/-- Runs one strategy by name. -/
def runStrat (s : Strat) (text : String) (o : Oracle) (st : SessionState) :
    Option String × SessionState :=
  match s with
  | .questionAboutAdjectives => question_about_adjectives text o st
  | .questionAboutVerb => question_about_verb text o st
  | .questionAboutObject => question_about_object text o st
  | .suggestQuote => suggest_quote o st
  | .wordBanishment => word_banishment text o st
  | .checkBanishedWords => check_banished_words text o st
  | .authorialImitation => authorial_imitation o st
  | .word2vecSuggestions => word2vec_suggestions text o st
  | .repetitionJudgment => repetition_judgment text st
  | .commandRecallNoun => command_recall_noun text o st
  | .commandComparison => command_comparison text o st
  | .suggestQuoteStub => suggest_quote_stub text o st
  | .commentAboutEntities => comment_about_entities text o st

/-- The per-mode strategy pools of `analyze_text`
(`mode_functions.get(mode, mode_functions["mixed"])`). -/
def mode_functions (mode : String) : List Strat :=
  if mode = "elaboration" then
    [.questionAboutAdjectives, .questionAboutVerb, .questionAboutObject,
     .word2vecSuggestions, .commentAboutEntities]
  else if mode = "imitation" then
    [.suggestQuote, .suggestQuoteStub, .authorialImitation]
  else if mode = "variation" then
    [.wordBanishment, .checkBanishedWords, .repetitionJudgment]
  else if mode = "backtracking" then
    [.commandRecallNoun, .commandComparison]
  else
    [.questionAboutAdjectives, .questionAboutVerb, .questionAboutObject,
     .suggestQuote, .wordBanishment, .checkBanishedWords,
     .authorialImitation, .word2vecSuggestions, .repetitionJudgment,
     .commandRecallNoun, .commandComparison]

/-- The shuffled strategy order of a turn: `random.shuffle` yields some
permutation of the pool, supplied by the oracle (ignored unless it really is
a permutation of the pool). -/
def shuffled_pool (o : Oracle) (pool : List Strat) : List Strat :=
  if o.shuffled.isPerm pool then o.shuffled else pool

/-- Models the strategy loop of `analyze_text`: invoke strategies in order,
returning the first truthy response, threading state mutations. -/
def runPool (text : String) (o : Oracle) :
    List Strat → SessionState → Option String × SessionState
  | [], st => (none, st)
  | s :: rest, st =>
    let r := runStrat s text o st
    match truthyStr r.1 with
    | some resp => (some resp, r.2)
    | none => runPool text o rest r.2

/-- Models the `try ... except` strategy loop of `analyze_text` one level
up: each entry is the outcome of one strategy call, `Except.error` standing
for a raised exception; an exception or a falsy response is skipped, the
first truthy response wins. -/
def dispatch_loop : List (Except Unit (Option String)) → Option String
  | [] => none
  | .error _ :: rest => dispatch_loop rest
  | .ok r :: rest =>
    match truthyStr r with
    | some resp => some resp
    | none => dispatch_loop rest

/-- Models `GymnasionWebApp.analyze_text`: empty-text guard, transcript
append and boredom bump, priority banished-word and imitation checks, then
the shuffled strategy loop with the "Continue..." fallback. -/
def analyze_text (text mode : String) (o : Oracle) (st : SessionState) :
    Option String × SessionState :=
  if pyStrip text = "" then (none, st)
  else
    let st1 := { st with poem_text := st.poem_text ++ "\n" ++ text,
                         boredom := st.boredom + 1 }
    let banned_check :=
      if st1.banished_words ≠ [] then check_banished_words text o st1
      else (none, st1)
    match truthyStr banned_check.1 with
    | some r => (some r, banned_check.2)
    | none =>
      let st2 := banned_check.2
      let imitation_check :=
        if st2.to_imitate ≠ "" ∧ (mode = "imitation" ∨ mode = "mixed") then
          authorial_imitation o st2
        else (none, st2)
      match truthyStr imitation_check.1 with
      | some r => (some r, imitation_check.2)
      | none =>
        let st3 := imitation_check.2
        let pool := shuffled_pool o (mode_functions mode)
        let lr := runPool text o pool st3
        match lr.1 with
        | some r => (some r, lr.2)
        | none => (some "Continue...", lr.2)

/-- Models one turn as the `/analyze` request handler drives the engine:
strip the text, answer the fixed prompt on empty input without touching
state, otherwise run `analyze_text` and fall back to "Continue...". -/
def process_turn (text mode : String) (o : Oracle) (st : SessionState) :
    String × SessionState :=
  let user_input := pyStrip text
  if user_input = "" then ("Please enter some text.", st)
  else
    let r := analyze_text user_input mode o st
    (pyOrElse r.1 "Continue...", r.2)

/-- States reachable from a fresh or reset session by any sequence of
turns, with arbitrary texts, modes and random outcomes. -/
inductive Reachable : SessionState → Prop
  | init : Reachable reset_session
  | reset (st : SessionState) : Reachable st → Reachable reset_session
  | turn (st : SessionState) (text mode : String) (o : Oracle) :
      Reachable st → Reachable (process_turn text mode o st).2

/-- Truthiness of one strategy-call outcome in the `try ... except` loop:
an exception or a falsy response yields `none`. -/
def exceptTruthy (x : Except Unit (Option String)) : Option String :=
  match x with
  | .error _ => none
  | .ok r => truthyStr r

/-- State reached by one invocation of the imitation strategy
(`_authorial_imitation`), discarding the response. -/
def imitStep (o : Oracle) (st : SessionState) : SessionState :=
  (authorial_imitation o st).2

/-- Concrete session state with an open imitation challenge at 3 attempts,
used to instantiate theorems at a concrete input. -/
def challengedState : SessionState :=
  { reset_session with to_imitate := "dickinson", imitation_attempts := 3 }

/-- Bundle of the session-state invariants maintained by every turn:
non-negative boredom, the imitation-challenge coupling, and the banished
words and used quotes being duplicate-free subsets of their catalogs. -/
structure StateInv (st : SessionState) : Prop where
  boredom_nonneg : 0 ≤ st.boredom
  imit : (st.to_imitate = "" ∧ st.imitation_attempts = 0)
    ∨ (st.to_imitate ≠ "" ∧ 0 < st.imitation_attempts)
  banished_nodup : st.banished_words.Nodup
  banished_nouns : ∀ w ∈ st.banished_words, w ∈ common_nouns
  quotes_nodup : st.used_quotes.Nodup
  quotes_mem : ∀ q ∈ st.used_quotes, q ∈ MOCK_QUOTES

/-! String infrastructure lemmas: Python `strip` / `split` / `lower`
interact as expected. -/

theorem ws_pyCharLower (c : Char) :
    (pyCharLower c).isWhitespace = c.isWhitespace := by
  unfold pyCharLower
  split <;> rfl

theorem data_mk (l : List Char) : (String.mk l).data = l := rfl

theorem mk_eq_empty_iff (l : List Char) : String.mk l = "" ↔ l = [] := by
  constructor
  · intro h
    have h2 : (String.mk l).data = ("" : String).data := by rw [h]
    simpa using h2
  · intro h
    subst h
    rfl

theorem stripChars_eq_nil_iff (l : List Char) :
    stripChars l = [] ↔ ∀ c ∈ l, c.isWhitespace := by
  unfold stripChars
  rw [List.reverse_eq_nil_iff, List.dropWhile_eq_nil_iff]
  constructor
  · intro h c hc
    rw [← List.takeWhile_append_dropWhile (p := Char.isWhitespace) (l := l)]
      at hc
    rcases List.mem_append.1 hc with h1 | h2
    · exact List.mem_takeWhile_imp h1
    · exact h c (List.mem_reverse.2 h2)
  · intro h c hc
    exact h c ((List.dropWhile_sublist _).subset (List.mem_reverse.1 hc))

theorem stripChars_key (l : List Char) :
    stripChars l
      ++ ((l.dropWhile Char.isWhitespace).reverse.takeWhile
            Char.isWhitespace).reverse
      = l.dropWhile Char.isWhitespace := by
  unfold stripChars
  rw [← List.reverse_append, List.takeWhile_append_dropWhile,
    List.reverse_reverse]

theorem stripChars_idem (l : List Char) :
    stripChars (stripChars l) = stripChars l := by
  have h1 : (stripChars l).dropWhile Char.isWhitespace = stripChars l := by
    cases hs : stripChars l with
    | nil => rfl
    | cons a r =>
      have hd : l.dropWhile Char.isWhitespace ≠ [] := by
        rw [← stripChars_key l, hs]
        simp
      have ha : Char.isWhitespace ((l.dropWhile Char.isWhitespace).head hd)
          = false := List.head_dropWhile_not _ l hd
      have hh : (l.dropWhile Char.isWhitespace).head? = some a := by
        have hk := stripChars_key l
        rw [hs] at hk
        rw [← hk]
        simp
      have hha : (l.dropWhile Char.isWhitespace).head hd = a := by
        have h5 := List.head?_eq_head (l := l.dropWhile Char.isWhitespace) hd
        rw [h5] at hh
        exact Option.some.inj hh
      rw [hha] at ha
      simp [List.dropWhile_cons, ha]
  have hrev : (stripChars l).reverse
      = (l.dropWhile Char.isWhitespace).reverse.dropWhile Char.isWhitespace := by
    unfold stripChars
    rw [List.reverse_reverse]
  have h2 : (stripChars l).reverse.dropWhile Char.isWhitespace
      = (stripChars l).reverse := by
    rw [hrev]
    exact List.dropWhile_idempotent _ _
  show (((stripChars l).dropWhile Char.isWhitespace).reverse.dropWhile
    Char.isWhitespace).reverse = stripChars l
  rw [h1, h2, List.reverse_reverse]

theorem pyStrip_idem (s : String) : pyStrip (pyStrip s) = pyStrip s := by
  unfold pyStrip
  rw [data_mk, stripChars_idem]

theorem pyStrip_eq_empty_iff (s : String) :
    pyStrip s = "" ↔ ∀ c ∈ s.data, c.isWhitespace := by
  unfold pyStrip
  rw [mk_eq_empty_iff, stripChars_eq_nil_iff]

theorem pyWordsAux_all_ws (t : List Char) (h : ∀ c ∈ t, c.isWhitespace) :
    ∀ acc, pyWordsAux t acc = if acc = [] then [] else [acc.reverse] := by
  induction t with
  | nil => intro acc; rfl
  | cons c t ih =>
    intro acc
    have hc : c.isWhitespace := h c (by simp)
    have ht : ∀ x ∈ t, x.isWhitespace = true := fun x hx => h x (by simp [hx])
    cases acc with
    | nil => simpa [pyWordsAux, hc] using ih ht []
    | cons a as => simp [pyWordsAux, hc, ih ht []]

theorem pyWords_all_ws (t : List Char) (h : ∀ c ∈ t, c.isWhitespace) :
    pyWords t = [] := by
  simpa [pyWords] using pyWordsAux_all_ws t h []

theorem pyWordsAux_append_ws (t : List Char)
    (ht : ∀ c ∈ t, c.isWhitespace) (x : List Char) :
    ∀ acc, pyWordsAux (x ++ t) acc = pyWordsAux x acc := by
  induction x with
  | nil =>
    intro acc
    rw [List.nil_append, pyWordsAux_all_ws t ht acc]
    rfl
  | cons c x ih =>
    intro acc
    by_cases hc : c.isWhitespace
    · simp [pyWordsAux, hc, ih]
    · simp [pyWordsAux, hc, ih]

theorem pyWords_append_ws (x t : List Char)
    (ht : ∀ c ∈ t, c.isWhitespace) :
    pyWords (x ++ t) = pyWords x :=
  pyWordsAux_append_ws t ht x []

theorem pyWords_dropWhile_ws (l : List Char) :
    pyWords (l.dropWhile Char.isWhitespace) = pyWords l := by
  induction l with
  | nil => rfl
  | cons c l ih =>
    by_cases hc : c.isWhitespace
    · rw [List.dropWhile_cons_of_pos (by simpa using hc), ih]
      simp [pyWords, pyWordsAux, hc]
    · rw [List.dropWhile_cons_of_neg (by simpa using hc)]

theorem pyWords_stripChars (l : List Char) :
    pyWords (stripChars l) = pyWords l := by
  have hq : ∀ c ∈ ((l.dropWhile Char.isWhitespace).reverse.takeWhile
      Char.isWhitespace).reverse, c.isWhitespace := by
    intro c hc
    rw [List.mem_reverse] at hc
    exact List.mem_takeWhile_imp hc
  rw [← pyWords_dropWhile_ws l, ← stripChars_key l,
    pyWords_append_ws _ _ hq]

theorem stripChars_map_lower (l : List Char) :
    stripChars (l.map pyCharLower) = (stripChars l).map pyCharLower := by
  have hf : (Char.isWhitespace ∘ pyCharLower) = Char.isWhitespace :=
    funext ws_pyCharLower
  unfold stripChars
  rw [List.dropWhile_map, hf, ← List.map_reverse, List.dropWhile_map, hf,
    ← List.map_reverse]

theorem pySplit_lower_strip (s : String) :
    pySplit (pyLower (pyStrip s)) = pySplit (pyLower s) := by
  unfold pySplit pyLower pyStrip
  rw [data_mk, data_mk, ← stripChars_map_lower, pyWords_stripChars]

theorem pyStrip_ne_empty_of_mem_split (s w : String)
    (hw : w ∈ pySplit (pyLower s)) : pyStrip s ≠ "" := by
  intro hstrip
  rw [pyStrip_eq_empty_iff] at hstrip
  have hws : ∀ c ∈ (pyLower s).data, c.isWhitespace := by
    intro c hc
    rcases List.mem_map.1 hc with ⟨a, ha, rfl⟩
    rw [ws_pyCharLower]
    exact hstrip a ha
  have h0 : pySplit (pyLower s) = [] := by
    unfold pySplit
    rw [pyWords_all_ws _ hws]
    rfl
  rw [h0] at hw
  simp at hw

/-! Per-strategy state lemmas. -/

theorem pyChoice_mem {α : Type} (l : List α) (d : α) (i : Nat) (h : l ≠ []) :
    pyChoice l d i ∈ l := by
  unfold pyChoice
  have hlen : 0 < l.length := List.length_pos.2 h
  have hlt : i % l.length < l.length := Nat.mod_lt _ hlen
  rw [List.getD_eq_getElem?_getD, List.getElem?_eq_getElem hlt]
  exact List.getElem_mem hlt

theorem extract_nouns_mem (text : String) (w : String)
    (h : w ∈ extract_nouns text) : w ∈ common_nouns := by
  unfold extract_nouns at h
  exact of_decide_eq_true (List.mem_filter.1 h).2

theorem question_about_adjectives_state (text : String) (o : Oracle)
    (st : SessionState) : (question_about_adjectives text o st).2 = st := by
  unfold question_about_adjectives
  dsimp only
  split <;> rfl

theorem question_about_verb_state (text : String) (o : Oracle)
    (st : SessionState) : (question_about_verb text o st).2 = st := by
  unfold question_about_verb
  dsimp only
  split <;> rfl

theorem question_about_object_state (text : String) (o : Oracle)
    (st : SessionState) : (question_about_object text o st).2 = st := by
  unfold question_about_object
  dsimp only
  split <;> rfl

theorem word2vec_suggestions_state (text : String) (o : Oracle)
    (st : SessionState) : (word2vec_suggestions text o st).2 = st := by
  unfold word2vec_suggestions
  dsimp only
  split <;> rfl

theorem suggest_quote_stub_state (text : String) (o : Oracle)
    (st : SessionState) : (suggest_quote_stub text o st).2 = st := rfl

theorem comment_about_entities_state (text : String) (o : Oracle)
    (st : SessionState) : (comment_about_entities text o st).2 = st := by
  unfold comment_about_entities
  dsimp only
  split
  · rfl
  · split <;> rfl

theorem check_banished_words_state (text : String) (o : Oracle)
    (st : SessionState) : (check_banished_words text o st).2 = st := by
  unfold check_banished_words
  split
  · rfl
  · split <;> rfl

theorem repetition_judgment_state (text : String) (st : SessionState) :
    (repetition_judgment text st).2 = st
    ∨ (repetition_judgment text st).2 = { st with boredom := 0 } := by
  unfold repetition_judgment
  dsimp only
  split
  · exact Or.inl rfl
  · split
    · exact Or.inr rfl
    · exact Or.inl rfl

theorem command_recall_noun_state (text : String) (o : Oracle)
    (st : SessionState) :
    (command_recall_noun text o st).2 = st
    ∨ (command_recall_noun text o st).2 = { st with boredom := 0 } := by
  unfold command_recall_noun
  dsimp only
  split
  · exact Or.inl rfl
  · split
    · exact Or.inl rfl
    · exact Or.inr rfl

theorem command_comparison_state (text : String) (o : Oracle)
    (st : SessionState) :
    (command_comparison text o st).2 = st
    ∨ (command_comparison text o st).2 = { st with boredom := 0 } := by
  unfold command_comparison
  dsimp only
  split
  · exact Or.inl rfl
  · split
    · exact Or.inl rfl
    · exact Or.inr rfl

theorem word_banishment_state (text : String) (o : Oracle)
    (st : SessionState) :
    (word_banishment text o st).2 = st
    ∨ ∃ w, w ∈ common_nouns ∧ w ∉ st.banished_words ∧
        (word_banishment text o st).2
          = { st with banished_words := st.banished_words ++ [w] } := by
  unfold word_banishment
  dsimp only
  split
  · exact Or.inl rfl
  · right
    rename_i hne
    have hmem : pyChoice
        ((extract_nouns text).filter
          (fun n => decide (n ∉ st.banished_words))) "" o.banishNoun
        ∈ (extract_nouns text).filter
          (fun n => decide (n ∉ st.banished_words)) :=
      pyChoice_mem _ _ _ hne
    have h1 := List.mem_filter.1 hmem
    refine ⟨_, extract_nouns_mem text _ h1.1, of_decide_eq_true h1.2, rfl⟩

theorem suggest_quote_fields (o : Oracle) (st : SessionState) :
    (suggest_quote o st).2.poem_text = st.poem_text
    ∧ (suggest_quote o st).2.banished_words = st.banished_words
    ∧ (suggest_quote o st).2.boredom = st.boredom
    ∧ (suggest_quote o st).2.to_imitate = st.to_imitate
    ∧ (suggest_quote o st).2.imitation_attempts = st.imitation_attempts := by
  unfold suggest_quote
  dsimp only
  repeat' split
  all_goals exact ⟨rfl, rfl, rfl, rfl, rfl⟩

theorem suggest_quote_spec (o : Oracle) (st : SessionState)
    (hnd : st.used_quotes.Nodup)
    (hsub : ∀ q ∈ st.used_quotes, q ∈ MOCK_QUOTES) :
    ∃ q ∈ MOCK_QUOTES,
      (suggest_quote o st).1 = some (quote_response o q) ∧
      (if st.used_quotes.length < MOCK_QUOTES.length
       then q ∉ st.used_quotes
         ∧ (suggest_quote o st).2.used_quotes = st.used_quotes ++ [q]
       else (suggest_quote o st).2.used_quotes = [q]) := by
  unfold suggest_quote
  dsimp only
  by_cases hreset : st.used_quotes ≠ []
      ∧ MOCK_QUOTES.length ≤ st.used_quotes.length
  · rw [if_pos hreset]
    have havail : MOCK_QUOTES.filter
        (fun q => decide (q ∉
          ({ st with used_quotes := ([] : List (String × String)) }
            : SessionState).used_quotes))
        = MOCK_QUOTES := by
      simp
    rw [havail]
    rw [if_neg (by decide : ¬ (MOCK_QUOTES = []))]
    refine ⟨pyChoice MOCK_QUOTES ("", "") o.quoteIdx,
      pyChoice_mem _ _ _ (by decide), rfl, ?_⟩
    rw [if_neg (by omega : ¬ st.used_quotes.length < MOCK_QUOTES.length)]
    rfl
  · rw [if_neg hreset]
    push_neg at hreset
    have hlen : st.used_quotes.length < MOCK_QUOTES.length := by
      by_cases hu : st.used_quotes = []
      · rw [hu]
        decide
      · have := hreset hu
        omega
    have hne : MOCK_QUOTES.filter
        (fun q => decide (q ∉ st.used_quotes)) ≠ [] := by
      intro h0
      have hsubset : MOCK_QUOTES ⊆ st.used_quotes := by
        intro q hq
        by_contra hq2
        have hin : q ∈ MOCK_QUOTES.filter
            (fun q => decide (q ∉ st.used_quotes)) :=
          List.mem_filter.2 ⟨hq, by simpa using hq2⟩
        rw [h0] at hin
        simp at hin
      have := (List.Nodup.subperm (by decide : MOCK_QUOTES.Nodup)
        hsubset).length_le
      omega
    rw [if_neg hne]
    have hq := pyChoice_mem
      (MOCK_QUOTES.filter (fun q => decide (q ∉ st.used_quotes)))
      ("", "") o.quoteIdx hne
    have hq2 := List.mem_filter.1 hq
    refine ⟨_, hq2.1, rfl, ?_⟩
    rw [if_pos hlen]
    exact ⟨of_decide_eq_true hq2.2, rfl⟩

theorem authorial_imitation_fields (o : Oracle) (st : SessionState) :
    (authorial_imitation o st).2.poem_text = st.poem_text
    ∧ (authorial_imitation o st).2.banished_words = st.banished_words
    ∧ (authorial_imitation o st).2.used_quotes = st.used_quotes
    ∧ (authorial_imitation o st).2.boredom = st.boredom := by
  unfold authorial_imitation
  dsimp only
  repeat' split
  all_goals exact ⟨rfl, rfl, rfl, rfl⟩

theorem authorial_imitation_imit (o : Oracle) (st : SessionState)
    (h : (st.to_imitate = "" ∧ st.imitation_attempts = 0)
      ∨ (st.to_imitate ≠ "" ∧ 0 < st.imitation_attempts)) :
    ((authorial_imitation o st).2.to_imitate = ""
        ∧ (authorial_imitation o st).2.imitation_attempts = 0)
    ∨ ((authorial_imitation o st).2.to_imitate ≠ ""
        ∧ 0 < (authorial_imitation o st).2.imitation_attempts) := by
  unfold authorial_imitation
  dsimp only
  split
  · right
    have hm := pyChoice_mem MOCK_AUTHORS "" o.imitAuthor (by decide)
    constructor
    · show pyChoice MOCK_AUTHORS "" o.imitAuthor ≠ ""
      intro heq
      rw [heq] at hm
      revert hm
      decide
    · show (0 : Int) < 3
      decide
  · rename_i hne
    rcases h with ⟨he, _⟩ | ⟨_, hpos⟩
    · exact absurd he hne
    split
    · left
      exact ⟨rfl, rfl⟩
    · rename_i hcond
      right
      refine ⟨hne, ?_⟩
      push_neg at hcond
      show (0 : Int) < st.imitation_attempts - 1
      have := hcond.1
      omega

theorem StateInv.reset_boredom {st : SessionState} (h : StateInv st) :
    StateInv { st with boredom := 0 } :=
  ⟨le_refl 0, h.imit, h.banished_nodup, h.banished_nouns, h.quotes_nodup,
    h.quotes_mem⟩

theorem StateInv.banish {st : SessionState} (h : StateInv st) (w : String)
    (hw1 : w ∈ common_nouns) (hw2 : w ∉ st.banished_words) :
    StateInv { st with banished_words := st.banished_words ++ [w] } := by
  refine ⟨h.boredom_nonneg, h.imit, ?_, ?_, h.quotes_nodup, h.quotes_mem⟩
  · rw [List.nodup_append]
    refine ⟨h.banished_nodup, List.nodup_singleton w, ?_⟩
    intro x hx hx2
    have hxw := List.mem_singleton.1 hx2
    subst hxw
    exact hw2 hx
  · intro x hx
    rcases List.mem_append.1 hx with hx | hx
    · exact h.banished_nouns x hx
    · have hxw := List.mem_singleton.1 hx
      subst hxw
      exact hw1

theorem suggest_quote_inv (o : Oracle) (st : SessionState)
    (h : StateInv st) : StateInv (suggest_quote o st).2 := by
  obtain ⟨f1, f2, f3, f4, f5⟩ := suggest_quote_fields o st
  obtain ⟨q, hqm, _, hcond⟩ :=
    suggest_quote_spec o st h.quotes_nodup h.quotes_mem
  refine ⟨?_, ?_, ?_, ?_, ?_, ?_⟩
  · rw [f3]
    exact h.boredom_nonneg
  · rw [f4, f5]
    exact h.imit
  · rw [f2]
    exact h.banished_nodup
  · rw [f2]
    exact h.banished_nouns
  · by_cases hlen : st.used_quotes.length < MOCK_QUOTES.length
    · rw [if_pos hlen] at hcond
      rw [hcond.2, List.nodup_append]
      refine ⟨h.quotes_nodup, List.nodup_singleton q, ?_⟩
      intro x hx hx2
      have hxq := List.mem_singleton.1 hx2
      subst hxq
      exact hcond.1 hx
    · rw [if_neg hlen] at hcond
      rw [hcond]
      exact List.nodup_singleton q
  · by_cases hlen : st.used_quotes.length < MOCK_QUOTES.length
    · rw [if_pos hlen] at hcond
      rw [hcond.2]
      intro x hx
      rcases List.mem_append.1 hx with hx | hx
      · exact h.quotes_mem x hx
      · have hxq := List.mem_singleton.1 hx
        subst hxq
        exact hqm
    · rw [if_neg hlen] at hcond
      rw [hcond]
      intro x hx
      have hxq := List.mem_singleton.1 hx
      subst hxq
      exact hqm

theorem authorial_imitation_inv (o : Oracle) (st : SessionState)
    (h : StateInv st) : StateInv (authorial_imitation o st).2 := by
  obtain ⟨f1, f2, f3, f4⟩ := authorial_imitation_fields o st
  refine ⟨?_, authorial_imitation_imit o st h.imit, ?_, ?_, ?_, ?_⟩
  · rw [f4]
    exact h.boredom_nonneg
  · rw [f2]
    exact h.banished_nodup
  · rw [f2]
    exact h.banished_nouns
  · rw [f3]
    exact h.quotes_nodup
  · rw [f3]
    exact h.quotes_mem

theorem runStrat_inv (s : Strat) (text : String) (o : Oracle)
    (st : SessionState) (h : StateInv st) :
    StateInv (runStrat s text o st).2 := by
  cases s
  case questionAboutAdjectives =>
    simp only [runStrat, question_about_adjectives_state]
    exact h
  case questionAboutVerb =>
    simp only [runStrat, question_about_verb_state]
    exact h
  case questionAboutObject =>
    simp only [runStrat, question_about_object_state]
    exact h
  case suggestQuote =>
    exact suggest_quote_inv o st h
  case wordBanishment =>
    simp only [runStrat]
    rcases word_banishment_state text o st with he | ⟨w, hw1, hw2, he⟩
    · rw [he]
      exact h
    · rw [he]
      exact h.banish w hw1 hw2
  case checkBanishedWords =>
    simp only [runStrat, check_banished_words_state]
    exact h
  case authorialImitation =>
    exact authorial_imitation_inv o st h
  case word2vecSuggestions =>
    simp only [runStrat, word2vec_suggestions_state]
    exact h
  case repetitionJudgment =>
    simp only [runStrat]
    rcases repetition_judgment_state text st with he | he
    · rw [he]
      exact h
    · rw [he]
      exact h.reset_boredom
  case commandRecallNoun =>
    simp only [runStrat]
    rcases command_recall_noun_state text o st with he | he
    · rw [he]
      exact h
    · rw [he]
      exact h.reset_boredom
  case commandComparison =>
    simp only [runStrat]
    rcases command_comparison_state text o st with he | he
    · rw [he]
      exact h
    · rw [he]
      exact h.reset_boredom
  case suggestQuoteStub =>
    simp only [runStrat, suggest_quote_stub_state]
    exact h
  case commentAboutEntities =>
    simp only [runStrat, comment_about_entities_state]
    exact h

theorem runStrat_boredom (s : Strat) (text : String) (o : Oracle)
    (st : SessionState) :
    (runStrat s text o st).2.boredom = st.boredom
    ∨ (runStrat s text o st).2.boredom = 0 := by
  cases s
  case questionAboutAdjectives =>
    simp only [runStrat, question_about_adjectives_state]
    exact Or.inl trivial
  case questionAboutVerb =>
    simp only [runStrat, question_about_verb_state]
    exact Or.inl trivial
  case questionAboutObject =>
    simp only [runStrat, question_about_object_state]
    exact Or.inl trivial
  case suggestQuote =>
    exact Or.inl (suggest_quote_fields o st).2.2.1
  case wordBanishment =>
    simp only [runStrat]
    rcases word_banishment_state text o st with he | ⟨w, _, _, he⟩ <;>
      rw [he] <;> exact Or.inl rfl
  case checkBanishedWords =>
    simp only [runStrat, check_banished_words_state]
    exact Or.inl trivial
  case authorialImitation =>
    exact Or.inl (authorial_imitation_fields o st).2.2.2
  case word2vecSuggestions =>
    simp only [runStrat, word2vec_suggestions_state]
    exact Or.inl trivial
  case repetitionJudgment =>
    simp only [runStrat]
    rcases repetition_judgment_state text st with he | he <;> rw [he]
    · exact Or.inl rfl
    · exact Or.inr rfl
  case commandRecallNoun =>
    simp only [runStrat]
    rcases command_recall_noun_state text o st with he | he <;> rw [he]
    · exact Or.inl rfl
    · exact Or.inr rfl
  case commandComparison =>
    simp only [runStrat]
    rcases command_comparison_state text o st with he | he <;> rw [he]
    · exact Or.inl rfl
    · exact Or.inr rfl
  case suggestQuoteStub =>
    simp only [runStrat, suggest_quote_stub_state]
    exact Or.inl trivial
  case commentAboutEntities =>
    simp only [runStrat, comment_about_entities_state]
    exact Or.inl trivial

/-! Dispatcher-level lemmas. -/

theorem truthyStr_some (r : Option String) (resp : String)
    (h : truthyStr r = some resp) : resp ≠ "" ∧ r = some resp := by
  cases r with
  | none => simp [truthyStr] at h
  | some s =>
    simp only [truthyStr] at h
    by_cases hs : s = ""
    · rw [if_pos hs] at h
      simp at h
    · rw [if_neg hs] at h
      have := Option.some.inj h
      subst this
      exact ⟨hs, rfl⟩

theorem truthyStr_of_ne (s : String) (h : s ≠ "") :
    truthyStr (some s) = some s := by
  simp only [truthyStr]
  rw [if_neg h]

theorem runPool_inv (text : String) (o : Oracle) (pool : List Strat)
    (st : SessionState) (h : StateInv st) :
    StateInv (runPool text o pool st).2 := by
  induction pool generalizing st with
  | nil => exact h
  | cons s rest ih =>
    simp only [runPool]
    split
    · exact runStrat_inv s text o st h
    · exact ih _ (runStrat_inv s text o st h)

theorem runPool_boredom (text : String) (o : Oracle) (pool : List Strat)
    (st : SessionState) :
    (runPool text o pool st).2.boredom = st.boredom
    ∨ (runPool text o pool st).2.boredom = 0 := by
  induction pool generalizing st with
  | nil => exact Or.inl rfl
  | cons s rest ih =>
    simp only [runPool]
    split
    · exact runStrat_boredom s text o st
    · rcases ih ((runStrat s text o st).2) with h1 | h1 <;> rw [h1]
      · exact runStrat_boredom s text o st
      · exact Or.inr rfl

theorem runPool_truthy (text : String) (o : Oracle) (pool : List Strat)
    (st : SessionState) :
    (runPool text o pool st).1 = none
    ∨ ∃ r, (runPool text o pool st).1 = some r ∧ r ≠ "" := by
  induction pool generalizing st with
  | nil => exact Or.inl rfl
  | cons s rest ih =>
    simp only [runPool]
    split
    · rename_i resp heq
      exact Or.inr ⟨resp, rfl, (truthyStr_some _ _ heq).1⟩
    · exact ih ((runStrat s text o st).2)

theorem runPool_some_ne (text : String) (o : Oracle) (pool : List Strat)
    (st : SessionState) (r : String)
    (heq : (runPool text o pool st).1 = some r) : r ≠ "" := by
  have ht := runPool_truthy text o pool st
  rcases ht with h0 | ⟨r2, h2, hr2⟩
  · rw [heq] at h0
    exact absurd h0 (by simp)
  · rw [heq] at h2
    have hrr : r = r2 := Option.some.inj h2
    subst hrr
    exact hr2

theorem analyze_text_inv (text mode : String) (o : Oracle) (st : SessionState)
    (h : StateInv st) : StateInv (analyze_text text mode o st).2 := by
  unfold analyze_text
  split
  · exact h
  · dsimp only
    have h1 : StateInv { st with
        poem_text := st.poem_text ++ "\n" ++ text,
        boredom := st.boredom + 1 } :=
      ⟨by show (0 : Int) ≤ st.boredom + 1; have hb := h.boredom_nonneg; omega,
        h.imit, h.banished_nodup,
        h.banished_nouns, h.quotes_nodup, h.quotes_mem⟩
    set st1 : SessionState := { st with
      poem_text := st.poem_text ++ "\n" ++ text,
      boredom := st.boredom + 1 } with hst1
    have hbc : StateInv (if st1.banished_words ≠ [] then
        check_banished_words text o st1 else (none, st1)).2 := by
      split
      · rw [check_banished_words_state]
        exact h1
      · exact h1
    set bc := (if st1.banished_words ≠ [] then check_banished_words text o st1
      else (none, st1)) with hbcdef
    split
    · exact hbc
    · have himi : StateInv (if bc.2.to_imitate ≠ ""
          ∧ (mode = "imitation" ∨ mode = "mixed") then
          authorial_imitation o bc.2 else (none, bc.2)).2 := by
        split
        · exact authorial_imitation_inv o bc.2 hbc
        · exact hbc
      set imi := (if bc.2.to_imitate ≠ ""
          ∧ (mode = "imitation" ∨ mode = "mixed") then
          authorial_imitation o bc.2 else (none, bc.2)) with himidef
      split
      · exact himi
      · split
        · exact runPool_inv text o
            (shuffled_pool o (mode_functions mode)) imi.2 himi
        · exact runPool_inv text o
            (shuffled_pool o (mode_functions mode)) imi.2 himi

theorem analyze_text_boredom (text mode : String) (o : Oracle)
    (st : SessionState) (hne : pyStrip text ≠ "") :
    (analyze_text text mode o st).2.boredom = st.boredom + 1
    ∨ (analyze_text text mode o st).2.boredom = 0 := by
  unfold analyze_text
  rw [if_neg hne]
  dsimp only
  set st1 : SessionState := { st with
    poem_text := st.poem_text ++ "\n" ++ text,
    boredom := st.boredom + 1 } with hst1
  have hbc2 : (if st1.banished_words ≠ [] then
      check_banished_words text o st1 else (none, st1)).2 = st1 := by
    split
    · exact check_banished_words_state _ _ _
    · rfl
  set bc := (if st1.banished_words ≠ [] then check_banished_words text o st1
    else (none, st1)) with hbcdef
  split
  · rw [hbc2]
    exact Or.inl rfl
  · have himi2 : (if bc.2.to_imitate ≠ ""
        ∧ (mode = "imitation" ∨ mode = "mixed") then
        authorial_imitation o bc.2 else (none, bc.2)).2.boredom
        = bc.2.boredom := by
      split
      · exact (authorial_imitation_fields o bc.2).2.2.2
      · rfl
    set imi := (if bc.2.to_imitate ≠ ""
        ∧ (mode = "imitation" ∨ mode = "mixed") then
        authorial_imitation o bc.2 else (none, bc.2)) with himidef
    split
    · rw [himi2, hbc2]
      exact Or.inl rfl
    · split
      all_goals
        rcases runPool_boredom text o
          (shuffled_pool o (mode_functions mode)) imi.2 with h2 | h2
      · left
        rw [h2, himi2, hbc2]
      · right
        exact h2
      · left
        rw [h2, himi2, hbc2]
      · right
        exact h2

theorem process_turn_inv (text mode : String) (o : Oracle) (st : SessionState)
    (h : StateInv st) : StateInv (process_turn text mode o st).2 := by
  unfold process_turn
  dsimp only
  split
  · exact h
  · exact analyze_text_inv (pyStrip text) mode o st h

theorem process_turn_boredom (text mode : String) (o : Oracle)
    (st : SessionState) (hne : pyStrip text ≠ "") :
    (process_turn text mode o st).2.boredom = st.boredom + 1
    ∨ (process_turn text mode o st).2.boredom = 0 := by
  unfold process_turn
  dsimp only
  rw [if_neg hne]
  exact analyze_text_boredom (pyStrip text) mode o st
    (by rw [pyStrip_idem]; exact hne)

theorem reset_session_StateInv : StateInv reset_session :=
  ⟨le_refl 0, Or.inl ⟨rfl, rfl⟩, List.nodup_nil, by simp [reset_session],
    List.nodup_nil, by simp [reset_session]⟩

theorem reachable_StateInv (st : SessionState) (h : Reachable st) :
    StateInv st := by
  induction h with
  | init => exact reset_session_StateInv
  | reset st hst => exact reset_session_StateInv
  | turn st text mode o hst ih => exact process_turn_inv text mode o st ih

/-! Response-behavior lemmas for the priority pass and the fallback. -/

theorem banished_response_ne (o : Oracle) (w : String) :
    pyChoice banished_responses "" o.banishedResp
      ++ "\nI said not to sing of " ++ w ++ "..." ≠ "" := by
  intro h
  have hlen := congrArg String.length h
  rw [String.length_append, String.length_append, String.length_append]
    at hlen
  have h1 : ("..." : String).length = 3 := rfl
  have h2 : ("" : String).length = 0 := rfl
  omega

theorem check_banished_words_fires (T : String) (o : Oracle)
    (st : SessionState) (w : String)
    (hfind : (pySplit (pyLower T)).find?
      (fun x => decide (x ∈ st.banished_words)) = some w) :
    (check_banished_words T o st).1
      = some (pyChoice banished_responses "" o.banishedResp
          ++ "\nI said not to sing of " ++ w ++ "...") := by
  have hp := List.find?_some hfind
  have hwmem : w ∈ st.banished_words := by
    simp only [decide_eq_true_eq] at hp
    exact hp
  unfold check_banished_words
  rw [if_neg (List.ne_nil_of_mem hwmem)]
  rw [hfind]

theorem analyze_text_banished (T mode : String) (o : Oracle)
    (st : SessionState) (w : String)
    (hstrip : pyStrip T ≠ "")
    (hfind : (pySplit (pyLower T)).find?
      (fun x => decide (x ∈ st.banished_words)) = some w) :
    (analyze_text T mode o st).1
      = some (pyChoice banished_responses "" o.banishedResp
          ++ "\nI said not to sing of " ++ w ++ "...") := by
  have hp := List.find?_some hfind
  have hwmem : w ∈ st.banished_words := by
    simp only [decide_eq_true_eq] at hp
    exact hp
  unfold analyze_text
  rw [if_neg hstrip]
  dsimp only
  set st1 : SessionState := { st with
    poem_text := st.poem_text ++ "\n" ++ T,
    boredom := st.boredom + 1 } with hst1
  have hbne : st1.banished_words ≠ [] := List.ne_nil_of_mem hwmem
  rw [if_pos hbne]
  have hcb : (check_banished_words T o st1).1
      = some (pyChoice banished_responses "" o.banishedResp
          ++ "\nI said not to sing of " ++ w ++ "...") :=
    check_banished_words_fires T o st1 w hfind
  rw [hcb, truthyStr_of_ne _ (banished_response_ne o w)]

theorem dispatch_loop_none (outs : List (Except Unit (Option String)))
    (h : ∀ x ∈ outs, exceptTruthy x = none) : dispatch_loop outs = none := by
  induction outs with
  | nil => rfl
  | cons x rest ih =>
    have hx := h x (List.mem_cons_self x rest)
    have hrest : ∀ y ∈ rest, exceptTruthy y = none :=
      fun y hy => h y (List.mem_cons_of_mem x hy)
    cases x with
    | error e =>
      simp only [dispatch_loop]
      exact ih hrest
    | ok r =>
      simp only [dispatch_loop]
      simp only [exceptTruthy] at hx
      rw [hx]
      exact ih hrest

theorem dispatch_loop_first (pre post : List (Except Unit (Option String)))
    (r : String) (hr : r ≠ "") (h : ∀ x ∈ pre, exceptTruthy x = none) :
    dispatch_loop (pre ++ Except.ok (some r) :: post) = some r := by
  induction pre with
  | nil =>
    simp only [List.nil_append, dispatch_loop]
    rw [truthyStr_of_ne r hr]
  | cons x rest ih =>
    have hx := h x (List.mem_cons_self x rest)
    have hrest : ∀ y ∈ rest, exceptTruthy y = none :=
      fun y hy => h y (List.mem_cons_of_mem x hy)
    cases x with
    | error e =>
      simp only [List.cons_append, dispatch_loop]
      exact ih hrest
    | ok r2 =>
      simp only [List.cons_append, dispatch_loop]
      simp only [exceptTruthy] at hx
      rw [hx]
      exact ih hrest

theorem analyze_text_some (text mode : String) (o : Oracle)
    (st : SessionState) (hne : pyStrip text ≠ "") :
    ∃ resp, (analyze_text text mode o st).1 = some resp ∧ resp ≠ "" := by
  unfold analyze_text
  rw [if_neg hne]
  dsimp only
  split
  · rename_i r heq
    exact ⟨r, rfl, (truthyStr_some _ _ heq).1⟩
  · split
    · rename_i r heq
      exact ⟨r, rfl, (truthyStr_some _ _ heq).1⟩
    · split
      · rename_i r heq
        exact ⟨r, rfl, runPool_some_ne _ _ _ _ _ heq⟩
      · exact ⟨"Continue...", rfl, by decide⟩

theorem authorial_imitation_step (o : Oracle) (st : SessionState)
    (htgt : st.to_imitate ≠ "") :
    (0 < st.imitation_attempts - 1 → ¬ o.imitSuccess = true →
      (authorial_imitation o st).2
        = { st with imitation_attempts := st.imitation_attempts - 1 })
    ∧ (st.imitation_attempts - 1 ≤ 0 ∨ o.imitSuccess = true →
      (authorial_imitation o st).2
        = { st with to_imitate := "", imitation_attempts := 0 }) := by
  unfold authorial_imitation
  rw [if_neg htgt]
  dsimp only
  constructor
  · intro hpos hroll
    split
    · rename_i hc
      exfalso
      rcases hc with hc | hc
      · have hc2 : st.imitation_attempts - 1 ≤ 0 := hc
        omega
      · exact hroll hc
    · rfl
  · intro hc
    split
    · rfl
    · rename_i hc2
      exfalso
      apply hc2
      rcases hc with hc | hc
      · exact Or.inl hc
      · exact Or.inr hc

/-! Claim theorems. -/

/-- C1: for every mode and every session state, if the turn's text
(lower-cased and split on whitespace) contains a banished word, then
`process_turn` returns the banished-word warning referencing the first such
word — the output of `_check_banished_words` — and no other strategy's
output.  The witness instantiates the particular case of the claim: with
"forest" banished, the turn "I love the forest" returns the warning
referencing "forest". -/
theorem C1_banished_word_priority (text mode : String) (o : Oracle)
    (st : SessionState)
    (h : ∃ w ∈ pySplit (pyLower text), w ∈ st.banished_words) :
    ∃ w, (pySplit (pyLower text)).find?
        (fun x => decide (x ∈ st.banished_words)) = some w
      ∧ w ∈ st.banished_words
      ∧ (process_turn text mode o st).1
          = pyChoice banished_responses "" o.banishedResp
            ++ "\nI said not to sing of " ++ w ++ "..." := by
  obtain ⟨w0, hw0, hw0b⟩ := h
  have hsome : ((pySplit (pyLower text)).find?
      (fun x => decide (x ∈ st.banished_words))).isSome :=
    List.find?_isSome.2 ⟨w0, hw0, by simpa using hw0b⟩
  obtain ⟨w, hfind⟩ := Option.isSome_iff_exists.1 hsome
  have hp := List.find?_some hfind
  have hwb : w ∈ st.banished_words := by
    simp only [decide_eq_true_eq] at hp
    exact hp
  refine ⟨w, hfind, hwb, ?_⟩
  have hstrip : pyStrip text ≠ "" := pyStrip_ne_empty_of_mem_split text w0 hw0
  unfold process_turn
  dsimp only
  rw [if_neg hstrip]
  have hfind2 : (pySplit (pyLower (pyStrip text))).find?
      (fun x => decide (x ∈ st.banished_words)) = some w := by
    rw [pySplit_lower_strip]
    exact hfind
  have hA := analyze_text_banished (pyStrip text) mode o st w
    (by rw [pyStrip_idem]; exact hstrip) hfind2
  rw [hA]
  simp only [pyOrElse]
  rw [if_neg (banished_response_ne o w)]

/-- C2: from a state with an open imitation challenge at 3 attempts
remaining, at most 3 further invocations of `_authorial_imitation` return
the state to Idle (target cleared, attempts 0); each non-resolving
invocation decrements attempts by exactly 1, and on the 3rd invocation the
challenge resolves deterministically, whatever the random success rolls. -/
theorem C2_imitation_resolves (st : SessionState) (o1 o2 o3 : Oracle)
    (htgt : st.to_imitate ≠ "") (hatt : st.imitation_attempts = 3) :
    ((imitStep o1 st).to_imitate = ""
        ∧ (imitStep o1 st).imitation_attempts = 0)
    ∨ ((imitStep o1 st).to_imitate = st.to_imitate
        ∧ (imitStep o1 st).imitation_attempts = 2
        ∧ (((imitStep o2 (imitStep o1 st)).to_imitate = ""
              ∧ (imitStep o2 (imitStep o1 st)).imitation_attempts = 0)
          ∨ ((imitStep o2 (imitStep o1 st)).to_imitate = st.to_imitate
              ∧ (imitStep o2 (imitStep o1 st)).imitation_attempts = 1
              ∧ (imitStep o3 (imitStep o2 (imitStep o1 st))).to_imitate = ""
              ∧ (imitStep o3
                  (imitStep o2 (imitStep o1 st))).imitation_attempts = 0))) := by
  simp only [imitStep]
  by_cases hr1 : o1.imitSuccess = true
  · left
    rw [(authorial_imitation_step o1 st htgt).2 (Or.inr hr1)]
    exact ⟨rfl, rfl⟩
  · have hpos1 : 0 < st.imitation_attempts - 1 := by omega
    rw [(authorial_imitation_step o1 st htgt).1 hpos1 hr1]
    right
    refine ⟨rfl, ?_, ?_⟩
    · show st.imitation_attempts - 1 = 2
      omega
    · have htgt1 : ({ st with
          imitation_attempts := st.imitation_attempts - 1 }
          : SessionState).to_imitate ≠ "" := htgt
      by_cases hr2 : o2.imitSuccess = true
      · left
        rw [(authorial_imitation_step o2 _ htgt1).2 (Or.inr hr2)]
        exact ⟨rfl, rfl⟩
      · have hpos2 : 0 < ({ st with
            imitation_attempts := st.imitation_attempts - 1 }
            : SessionState).imitation_attempts - 1 := by
          show 0 < st.imitation_attempts - 1 - 1
          omega
        rw [(authorial_imitation_step o2 _ htgt1).1 hpos2 hr2]
        right
        have htgt2 : ({ { st with
            imitation_attempts := st.imitation_attempts - 1 } with
            imitation_attempts := ({ st with
              imitation_attempts := st.imitation_attempts - 1 }
              : SessionState).imitation_attempts - 1 }
            : SessionState).to_imitate ≠ "" := htgt
        have hres : ({ { st with
            imitation_attempts := st.imitation_attempts - 1 } with
            imitation_attempts := ({ st with
              imitation_attempts := st.imitation_attempts - 1 }
              : SessionState).imitation_attempts - 1 }
            : SessionState).imitation_attempts - 1 ≤ 0 := by
          show st.imitation_attempts - 1 - 1 - 1 ≤ 0
          omega
        rw [(authorial_imitation_step o3 _ htgt2).2 (Or.inl hres)]
        refine ⟨rfl, ?_, rfl, rfl⟩
        show st.imitation_attempts - 1 - 1 = 1
        omega

/-- C3: in every reachable session state, `used_quotes` is a duplicate-free
subset of the 5-entry quote catalog, and from any such state one call of
`_suggest_quote` returns a catalog quote that is not yet in `used_quotes`
(recording it) as long as not all quotes have been shown; once all 5 have
been shown, `used_quotes` is cleared and the suggestion may return any
catalog quote again (recorded as the only used quote). -/
theorem C3_quote_cycling :
    (∀ st : SessionState, Reachable st →
       st.used_quotes.Nodup ∧ ∀ q ∈ st.used_quotes, q ∈ MOCK_QUOTES)
    ∧ (∀ (o : Oracle) (st : SessionState),
       st.used_quotes.Nodup → (∀ q ∈ st.used_quotes, q ∈ MOCK_QUOTES) →
       ∃ q ∈ MOCK_QUOTES,
         (suggest_quote o st).1 = some (quote_response o q) ∧
         (if st.used_quotes.length < MOCK_QUOTES.length
          then q ∉ st.used_quotes
            ∧ (suggest_quote o st).2.used_quotes = st.used_quotes ++ [q]
          else (suggest_quote o st).2.used_quotes = [q])) :=
  ⟨fun st h => ⟨(reachable_StateInv st h).quotes_nodup,
     (reachable_StateInv st h).quotes_mem⟩,
   fun o st h1 h2 => suggest_quote_spec o st h1 h2⟩

/-- C4: the dispatcher is fail-soft: an outcome list whose entries are all
exceptions or falsy responses yields no response (so the fixed fallback is
returned), the first truthy response wins with every earlier exception or
falsy response skipped, `analyze_text` on non-empty input always produces a
non-empty response, and `process_turn` always returns a non-empty string —
no error is surfaced to the caller. -/
theorem C4_fail_soft :
    (∀ outs : List (Except Unit (Option String)),
        (∀ x ∈ outs, exceptTruthy x = none) → dispatch_loop outs = none)
    ∧ (∀ (pre post : List (Except Unit (Option String))) (r : String),
        r ≠ "" → (∀ x ∈ pre, exceptTruthy x = none) →
        dispatch_loop (pre ++ Except.ok (some r) :: post) = some r)
    ∧ (∀ (text mode : String) (o : Oracle) (st : SessionState),
        pyStrip text ≠ "" →
        ∃ resp, (analyze_text text mode o st).1 = some resp ∧ resp ≠ "")
    ∧ (∀ (text mode : String) (o : Oracle) (st : SessionState),
        (process_turn text mode o st).1 ≠ "") := by
  refine ⟨dispatch_loop_none, dispatch_loop_first, analyze_text_some, ?_⟩
  intro text mode o st
  unfold process_turn
  dsimp only
  split
  · show ("Please enter some text." : String) ≠ ""
    decide
  · rename_i hne
    obtain ⟨resp, h1, h2⟩ := analyze_text_some (pyStrip text) mode o st
      (by rw [pyStrip_idem]; exact hne)
    rw [h1]
    simp only [pyOrElse]
    rw [if_neg h2]
    exact h2

/-- C5: for every mode and prior session state, a turn whose text is empty
or whitespace-only returns the fixed empty-input prompt and leaves the whole
session state (every field) unchanged. -/
theorem C5_empty_input (text mode : String) (o : Oracle) (st : SessionState)
    (h : pyStrip text = "") :
    process_turn text mode o st = ("Please enter some text.", st) := by
  unfold process_turn
  dsimp only
  rw [if_pos h]

/-- C6: in every reachable session state boredom is non-negative, and every
non-empty turn either increments boredom by exactly 1 or leaves it reset to
0 by a strategy that fired this turn; no operation decreases it otherwise. -/
theorem C6_boredom_invariant :
    (∀ st : SessionState, Reachable st → 0 ≤ st.boredom)
    ∧ (∀ (text mode : String) (o : Oracle) (st : SessionState),
        pyStrip text ≠ "" →
        (process_turn text mode o st).2.boredom = st.boredom + 1
        ∨ (process_turn text mode o st).2.boredom = 0) :=
  ⟨fun st h => (reachable_StateInv st h).boredom_nonneg,
   fun text mode o st hne => process_turn_boredom text mode o st hne⟩

/-- C7: in every session state reachable by `process_turn` and
`reset_session` from the initial state, the imitation target is set if and
only if the remaining attempt count is positive — the two fields are set
together and cleared together. -/
theorem C7_imitation_fields_coupled (st : SessionState) (h : Reachable st) :
    st.to_imitate ≠ "" ↔ 0 < st.imitation_attempts := by
  rcases (reachable_StateInv st h).imit with ⟨h1, h2⟩ | ⟨h1, h2⟩
  · constructor
    · intro hne
      exact absurd h1 hne
    · intro hpos
      rw [h2] at hpos
      exact absurd hpos (lt_irrefl 0)
  · exact ⟨fun _ => h2, fun _ => h1⟩

/-- C8 counterexample: the claim that the "mixed" pool is the union of all
strategy groups is false — `_comment_about_entities` is in the elaboration
pool and `_suggest_quote_stub` is in the imitation pool, yet neither is in
the mixed pool. -/
theorem C8_counterexample :
    Strat.commentAboutEntities ∈ mode_functions "elaboration"
    ∧ Strat.commentAboutEntities ∉ mode_functions "mixed"
    ∧ Strat.suggestQuoteStub ∈ mode_functions "imitation"
    ∧ Strat.suggestQuoteStub ∉ mode_functions "mixed" := by
  decide

/-- C8 (amended): every mode string other than the five named modes uses the
mixed pool, and the mixed pool consists of exactly the strategies of the
four groups except `_comment_about_entities` and `_suggest_quote_stub`. -/
theorem C8_amended_pools :
    (∀ mode : String,
        mode ∉ (["elaboration", "imitation", "variation", "backtracking",
          "mixed"] : List String) →
        mode_functions mode = mode_functions "mixed")
    ∧ (∀ s : Strat, s ∈ mode_functions "mixed" ↔
        ((s ∈ mode_functions "elaboration"
            ∨ s ∈ mode_functions "imitation"
            ∨ s ∈ mode_functions "variation"
            ∨ s ∈ mode_functions "backtracking")
          ∧ s ≠ Strat.commentAboutEntities
          ∧ s ≠ Strat.suggestQuoteStub)) := by
  constructor
  · intro mode hmem
    simp only [List.mem_cons, List.not_mem_nil, or_false, not_or] at hmem
    obtain ⟨h1, h2, h3, h4, h5⟩ := hmem
    simp [mode_functions, h1, h2, h3, h4, h5]
  · intro s
    cases s <;> decide

/-- C9 counterexample: the claim as stated is false on the code — with
boredom 3 the text "Inside the ancient forest deep" starts with "I" and has
more than three words, yet `_repetition_judgment` produces no response and
leaves boredom unchanged (the code tests the whole first word, not the first
character). -/
theorem C9_counterexample :
    (3 : Int) ≤ ({ reset_session with boredom := 3 } : SessionState).boredom
    ∧ "Inside the ancient forest deep".data.take 1 = "I".data
    ∧ 3 < (pySplit "Inside the ancient forest deep").length
    ∧ repetition_judgment "Inside the ancient forest deep"
        { reset_session with boredom := 3 }
      = (none, { reset_session with boredom := 3 }) := by
  decide

/-- C9 (amended): whenever boredom is at least 3, the text has more than
three words and its first whitespace-separated word lower-cases to "i",
`_repetition_judgment` returns the complaint quoting the first four words
and resets boredom to 0; in every other case it returns no response and
leaves the state (in particular boredom) unchanged. -/
theorem C9_amended_style_complaint (text : String) (st : SessionState) :
    ((3 ≤ st.boredom ∧ 3 < (pySplit text).length
        ∧ pyLower ((pySplit text).headD "") = "i") →
      repetition_judgment text st
        = (some ("Eschew this tired syntax:\n   \""
            ++ String.intercalate " " ((pySplit text).take 4) ++ "...\""),
          { st with boredom := 0 }))
    ∧ (¬(3 ≤ st.boredom ∧ 3 < (pySplit text).length
        ∧ pyLower ((pySplit text).headD "") = "i") →
      repetition_judgment text st = (none, st)) := by
  constructor
  · intro h
    obtain ⟨h1, h2, h3⟩ := h
    unfold repetition_judgment
    rw [if_neg (by omega : ¬ st.boredom < 3)]
    dsimp only
    rw [if_pos ⟨h2, h3⟩]
  · intro hn
    unfold repetition_judgment
    dsimp only
    split
    · rfl
    · split
      · rename_i hge hcond
        exfalso
        apply hn
        push_neg at hge
        exact ⟨by omega, hcond.1, hcond.2⟩
      · rfl

/-- C10: in every reachable session state, `banished_words` holds no
duplicates and every banished word belongs to the fixed 24-word noun
vocabulary of `_extract_nouns` — banishment only picks not-yet-banished
nouns extracted from the current text. -/
theorem C10_banished_vocabulary (st : SessionState) (h : Reachable st) :
    st.banished_words.Nodup
    ∧ ∀ w ∈ st.banished_words, w ∈ common_nouns :=
  ⟨(reachable_StateInv st h).banished_nodup,
   (reachable_StateInv st h).banished_nouns⟩

/-! Witnesses: each theorem with a hypothesis instantiated at a concrete
input. -/

/-- Witness for C1 at the spec's own example: "forest" banished, turn
"I love the forest". -/
theorem C1_witness :
    ∃ w, (pySplit (pyLower "I love the forest")).find?
        (fun x => decide (x ∈
          ({ reset_session with banished_words := ["forest"] }
            : SessionState).banished_words)) = some w
      ∧ w ∈ ({ reset_session with banished_words := ["forest"] }
          : SessionState).banished_words
      ∧ (process_turn "I love the forest" "elaboration" oracle0
          { reset_session with banished_words := ["forest"] }).1
          = pyChoice banished_responses "" oracle0.banishedResp
            ++ "\nI said not to sing of " ++ w ++ "..." :=
  C1_banished_word_priority "I love the forest" "elaboration" oracle0
    { reset_session with banished_words := ["forest"] }
    ⟨"forest", by decide, by decide⟩

/-- Witness for C2 at a concrete challenged state with failing rolls. -/
theorem C2_witness :
    ((imitStep oracle0 challengedState).to_imitate = ""
        ∧ (imitStep oracle0 challengedState).imitation_attempts = 0)
    ∨ ((imitStep oracle0 challengedState).to_imitate
          = challengedState.to_imitate
        ∧ (imitStep oracle0 challengedState).imitation_attempts = 2
        ∧ (((imitStep oracle0
              (imitStep oracle0 challengedState)).to_imitate = ""
              ∧ (imitStep oracle0
                  (imitStep oracle0 challengedState)).imitation_attempts = 0)
          ∨ ((imitStep oracle0
                (imitStep oracle0 challengedState)).to_imitate
                = challengedState.to_imitate
              ∧ (imitStep oracle0
                  (imitStep oracle0 challengedState)).imitation_attempts = 1
              ∧ (imitStep oracle0 (imitStep oracle0
                  (imitStep oracle0 challengedState))).to_imitate = ""
              ∧ (imitStep oracle0 (imitStep oracle0
                  (imitStep oracle0 challengedState))).imitation_attempts
                  = 0))) :=
  C2_imitation_resolves challengedState oracle0 oracle0 oracle0 (by decide)
    (by decide)

/-- Witness for C3 at the initial state. -/
theorem C3_witness :
    (reset_session.used_quotes.Nodup
      ∧ ∀ q ∈ reset_session.used_quotes, q ∈ MOCK_QUOTES)
    ∧ (∃ q ∈ MOCK_QUOTES,
        (suggest_quote oracle0 reset_session).1
          = some (quote_response oracle0 q)
        ∧ (if reset_session.used_quotes.length < MOCK_QUOTES.length
           then q ∉ reset_session.used_quotes
             ∧ (suggest_quote oracle0 reset_session).2.used_quotes
                = reset_session.used_quotes ++ [q]
           else (suggest_quote oracle0 reset_session).2.used_quotes = [q])) :=
  ⟨C3_quote_cycling.1 reset_session Reachable.init,
   C3_quote_cycling.2 oracle0 reset_session (by decide) (by decide)⟩

/-- Witness for C4: a loop whose first entries raise or return falsy
responses yields the first truthy response, and a concrete turn returns a
non-empty string. -/
theorem C4_witness :
    dispatch_loop [Except.error (), Except.ok none,
      Except.ok (some ""), Except.ok (some "x")] = some "x"
    ∧ (process_turn "A wolf hunts" "mixed" oracle0 reset_session).1 ≠ "" :=
  ⟨C4_fail_soft.2.1 [Except.error (), Except.ok none, Except.ok (some "")]
      [] "x" (by decide) (by decide),
   C4_fail_soft.2.2.2 "A wolf hunts" "mixed" oracle0 reset_session⟩

/-- Witness for C5 on whitespace-only input over a non-trivial state. -/
theorem C5_witness :
    process_turn "   " "mixed" oracle0
        { reset_session with boredom := 7, banished_words := ["sea"] }
      = ("Please enter some text.",
        { reset_session with boredom := 7, banished_words := ["sea"] }) :=
  C5_empty_input "   " "mixed" oracle0
    { reset_session with boredom := 7, banished_words := ["sea"] }
    (by decide)

/-- Witness for C6 at the initial state and a concrete turn. -/
theorem C6_witness :
    0 ≤ reset_session.boredom
    ∧ ((process_turn "The sea" "mixed" oracle0 reset_session).2.boredom
        = reset_session.boredom + 1
      ∨ (process_turn "The sea" "mixed" oracle0 reset_session).2.boredom
        = 0) :=
  ⟨C6_boredom_invariant.1 reset_session Reachable.init,
   C6_boredom_invariant.2 "The sea" "mixed" oracle0 reset_session
     (by decide)⟩

/-- Witness for C7 at the initial state. -/
theorem C7_witness :
    reset_session.to_imitate ≠ "" ↔ 0 < reset_session.imitation_attempts :=
  C7_imitation_fields_coupled reset_session Reachable.init

/-- Witness for the amended C8 at an unrecognized mode and one strategy. -/
theorem C8_witness :
    mode_functions "surrealism" = mode_functions "mixed"
    ∧ (Strat.wordBanishment ∈ mode_functions "mixed" ↔
        ((Strat.wordBanishment ∈ mode_functions "elaboration"
            ∨ Strat.wordBanishment ∈ mode_functions "imitation"
            ∨ Strat.wordBanishment ∈ mode_functions "variation"
            ∨ Strat.wordBanishment ∈ mode_functions "backtracking")
          ∧ Strat.wordBanishment ≠ Strat.commentAboutEntities
          ∧ Strat.wordBanishment ≠ Strat.suggestQuoteStub)) :=
  ⟨C8_amended_pools.1 "surrealism" (by decide),
   C8_amended_pools.2 Strat.wordBanishment⟩

/-- Witness for the amended C9 on a firing input. -/
theorem C9_witness :
    repetition_judgment "i saw the ancient forest"
        { reset_session with boredom := 3 }
      = (some ("Eschew this tired syntax:\n   \""
          ++ String.intercalate " "
              ((pySplit "i saw the ancient forest").take 4) ++ "...\""),
        reset_session) :=
  (C9_amended_style_complaint "i saw the ancient forest"
    { reset_session with boredom := 3 }).1 (by decide)

/-- Witness for C10 at the initial state. -/
theorem C10_witness :
    reset_session.banished_words.Nodup
    ∧ ∀ w ∈ reset_session.banished_words, w ∈ common_nouns :=
  C10_banished_vocabulary reset_session Reachable.init
